import Mathlib

/-!
Verification of the BemEstar questionnaire application.

The repository is a React Native client (screens under `frontend/app`,
session handling in `frontend/contexts/AuthContext.tsx`).  The pure logic of
those screens — input validation before a request is issued, the answer
formatting performed at submission time, the assignment toggle, the question
editor, logout — is embedded below directly from the TypeScript source.
The backend repositories (form storage, response storage, user registry) are
not part of the repository excerpt; where a property depends on them they are
modelled from the specification, and each such definition says so in its doc
comment.

Strings are modelled by `String`, TypeScript objects by structures, the
`answers` object keyed by question id by an association list, and
`AsyncStorage` by an association list of key/value pairs.  Fallible
operations return `Except ApiError`.
-/

namespace BemEstar

deriving instance DecidableEq for Except

/-- The blank test used throughout the client: JS `!s.trim()` is truthy iff
the string trims to nothing, i.e. consists only of whitespace. -/
def blank (s : String) : Bool := s.data.all (fun c => c.isWhitespace)

/-- The error taxonomy of the specification (§7): validation 400, auth 401,
forbidden 403, not-found 404, conflict 409. -/
inductive ApiError where
  | validationError
  | authError
  | forbiddenError
  | notFoundError
  | conflictError
deriving DecidableEq, Repr

/-- A form question, from the `Question` interface of the client
(`id`, `text`, `order`); `order` is assigned from the list length. -/
structure Question where
  id : String
  text : String
  order : Nat
deriving DecidableEq, Repr

/-- A stored answer, from the `Answer` interface of the client:
question id, snapshotted question text, and the patient's answer text. -/
structure Answer where
  questionId : String
  questionText : String
  answerText : String
deriving DecidableEq, Repr

/-- A questionnaire form, data model §3: id, title, optional description
(empty string when absent), ordered questions, owning psychologist, and the
assigned patient ids (empty list means visible to all patients). -/
structure Form where
  id : String
  title : String
  description : String
  questions : List Question
  ownerPsychologistId : String
  assignedPatientIds : List String
deriving DecidableEq, Repr

/-- A submitted response, data model §3: snapshots the form title and carries
one `Answer` per question; never mutated after creation. -/
structure Response where
  id : String
  formId : String
  patientId : String
  formTitle : String
  answers : List Answer
  submittedAt : Nat
deriving DecidableEq, Repr

/-- A user as stored by the client session (`User` interface in
`AuthContext.tsx`): id, username, name, email and a role string. -/
structure User where
  id : String
  username : String
  name : String
  email : String
  role : String
deriving DecidableEq, Repr

/-- The role strings admitted by the `User` interface in
`frontend/contexts/AuthContext.tsx` line 14:
`'psychologist' | 'patient' | 'patiente'`. -/
def userRoleValues : List String := ["psychologist", "patient", "patiente"]

/-- `s` is a value of the client's `User.role` union type. -/
def isUserRole (s : String) : Bool := userRoleValues.contains s

/-- The role values the registration screen can produce: its `role` state is
typed `'psychologist' | 'patient'` and only those two are ever set. -/
def registerRoleValues : List String := ["psychologist", "patient"]

/-- Lookup in the client's `answers` object (keyed by question id);
`none` models an untouched input (`answers[q.id]` undefined). -/
def lookupAnswer (answers : List (String × String)) (qid : String) : Option String :=
  (answers.find? (fun kv => kv.1 == qid)).map (fun kv => kv.2)

/-- The per-question check of `handleSubmit` in `app/patient/answer`:
`!answers[q.id] || !answers[q.id].trim()` — the entry is missing, empty, or
whitespace-only. -/
def answerMissing (answers : List (String × String)) (qid : String) : Bool :=
  match lookupAnswer answers qid with
  | none => true
  | some t => t.isEmpty || blank t

/-- The body of `POST /api/responses` issued by the answer screen. -/
structure SubmitRequest where
  formId : String
  answers : List Answer
deriving DecidableEq, Repr

/-- `handleSubmit` of the answer screen (`history.tsx` lines 1064-1098 of the
excerpt): if any question is unanswered it alerts and returns without issuing
a request (`ValidationError`); if the session token is absent it redirects to
login (`AuthError`); otherwise — once the user confirms the dialog — it maps
the form's questions, in order, to answers `{questionId, questionText := q.text,
answerText := answers[q.id]}` and posts them.  The confirmed path is modelled;
cancelling the dialog issues no request and changes nothing. -/
def handleSubmit (form : Form) (answers : List (String × String))
    (token : Option String) : Except ApiError SubmitRequest :=
  if (form.questions.filter (fun q => answerMissing answers q.id)).length > 0 then
    .error .validationError
  else if token.isNone then
    .error .authError
  else
    .ok { formId := form.id
          answers := form.questions.map (fun q =>
            { questionId := q.id
              questionText := q.text
              answerText := (lookupAnswer answers q.id).getD "" }) }

/-- The body of `PUT /api/forms/:id` issued by the edit screen. -/
structure UpdateRequest where
  title : String
  description : String
  questions : List Question
  assignedPatientIds : List String
deriving DecidableEq, Repr

/-- `handleSubmit` of the `EditForm` screen (the `AuthContext.tsx` excerpt,
lines 244-284): rejects a blank (trimmed-empty) title, an empty question list,
or any question with blank text, issuing no request (`ValidationError`);
otherwise puts `{title, description, questions, assignedPatientIds}`. -/
def editSubmit (title description : String) (questions : List Question)
    (assignedPatientIds : List String) : Except ApiError UpdateRequest :=
  if blank title then .error .validationError
  else if questions.length == 0 then .error .validationError
  else if (questions.filter (fun q => blank q.text)).length > 0 then
    .error .validationError
  else
    .ok { title := title, description := description
          questions := questions, assignedPatientIds := assignedPatientIds }

/-- `toggleAssign` of the `EditForm` screen (`AuthContext.tsx` excerpt lines
223-225): if the patient id is present, remove every occurrence; otherwise
append it. -/
def toggleAssign (prev : List String) (pid : String) : List String :=
  if prev.contains pid then prev.filter (fun x => x != pid) else prev ++ [pid]

/-- `updateQuestion` of the `EditForm` screen (`AuthContext.tsx` excerpt lines
236-238): rewrite the text of every question whose id matches, keep the rest. -/
def updateQuestion (questions : List Question) (qid text : String) : List Question :=
  questions.map (fun q => if q.id == qid then { q with text := text } else q)

/-- `AsyncStorage.removeItem`: drop every entry under the key. -/
def removeItem (storage : List (String × String)) (key : String) :
    List (String × String) :=
  storage.filter (fun kv => kv.1 != key)

/-- `AsyncStorage.getItem`: the stored value under the key, if any. -/
def getItem (storage : List (String × String)) (key : String) : Option String :=
  (storage.find? (fun kv => kv.1 == key)).map (fun kv => kv.2)

/-- The client session: the `token` and `user` React state of `AuthProvider`
together with the `AsyncStorage` contents. -/
structure SessionState where
  token : Option String
  user : Option User
  storage : List (String × String)
deriving DecidableEq, Repr

/-- `logout` of `AuthContext.tsx` lines 114-119: removes the stored `token`
and `user` entries and sets both state fields to null. -/
def logout (s : SessionState) : SessionState :=
  { token := none
    user := none
    storage := removeItem (removeItem s.storage "token") "user" }

/-- The body of `POST /api/auth/register` issued by the registration screen. -/
structure RegisterRequest where
  username : String
  password : String
  name : String
  email : String
  role : String
deriving DecidableEq, Repr

/-- `handleRegister` of the `Register` screen (README excerpt lines 403-435):
any empty required field, a username shorter than 3, or a password shorter
than 6 alerts and returns without calling `register` (`ValidationError`);
otherwise the registration request is issued. -/
def handleRegister (username password nm email role : String) :
    Except ApiError RegisterRequest :=
  if username.isEmpty || password.isEmpty || nm.isEmpty || email.isEmpty then
    .error .validationError
  else if username.length < 3 then .error .validationError
  else if password.length < 6 then .error .validationError
  else
    .ok { username := username, password := password
          name := nm, email := email, role := role }

/-- The backend storage state: the form repository and the response
repository.  The backend itself is not part of the repository excerpt; it is
reconstructed from the specification where needed below. -/
structure Store where
  forms : List Form
  responses : List Response
deriving DecidableEq, Repr

/-- `r` is the stored response for the pair `(formId, patientId)`. -/
def matchesPair (formId patientId : String) (r : Response) : Bool :=
  r.formId == formId && r.patientId == patientId

/-- In the submitted answers, question `q` has a non-blank answer. -/
def questionAnswered (answers : List Answer) (q : Question) : Bool :=
  match answers.find? (fun a => a.questionId == q.id) with
  | none => false
  | some a => !(blank a.answerText)

/-- Modelled from the spec: `submitResponse` of the Response Repository
(§4.3), whose backend code is not in the repository excerpt.  It fails
`ValidationError` if the caller is not a patient or any question of the form
lacks a non-blank answer, `ForbiddenError` if the form is not visible to the
patient (visibility rule of §4.2), `ConflictError` if a response already
exists for `(formId, patientId)`; otherwise it stores a response snapshotting
the form title (the submitted answers already carry the question-text
snapshot taken by the client) and returns it.  `rid` and `now` stand for the
generated id and timestamp.  An error persists nothing: no store is
returned. -/
def submitResponse (st : Store) (rid : String) (now : Nat)
    (callerRole patientId : String) (req : SubmitRequest) :
    Except ApiError (Response × Store) :=
  match st.forms.find? (fun f => f.id == req.formId) with
  | none => .error .notFoundError
  | some f =>
    if callerRole != "patient" then .error .validationError
    else if !(f.assignedPatientIds.isEmpty || f.assignedPatientIds.contains patientId) then
      .error .forbiddenError
    else if !(f.questions.all (questionAnswered req.answers)) then
      .error .validationError
    else if st.responses.any (matchesPair req.formId patientId) then
      .error .conflictError
    else
      let r : Response :=
        { id := rid, formId := req.formId, patientId := patientId
          formTitle := f.title, answers := req.answers, submittedAt := now }
      .ok (r, { st with responses := st.responses ++ [r] })

/-- Modelled from the spec: `listResponsesForForm` of the Response Repository
(§4.3), whose backend code is not in the repository excerpt.  Only the owning
psychologist may call it; it returns every stored response for the form. -/
def listResponsesForForm (st : Store) (callerId formId : String) :
    Except ApiError (List Response) :=
  match st.forms.find? (fun f => f.id == formId) with
  | none => .error .notFoundError
  | some f =>
    if f.ownerPsychologistId != callerId then .error .forbiddenError
    else .ok (st.responses.filter (fun r => r.formId == formId))

/-- Modelled from the spec: `listFormsForPatient` of the Form Repository
(§4.2), whose backend code is not in the repository excerpt.  It returns the
forms whose `assignedPatientIds` is empty or contains the patient. -/
def listFormsForPatient (st : Store) (patientId : String) : List Form :=
  st.forms.filter (fun f =>
    f.assignedPatientIds.isEmpty || f.assignedPatientIds.contains patientId)

/-- Modelled from the spec: `updateForm` of the Form Repository (§4.2), whose
backend code is not in the repository excerpt.  Only the owning psychologist
may update; title/questions are re-validated as in create; the form's title,
description, questions and `assignedPatientIds` are replaced wholesale.
Responses are untouched. -/
def updateForm (st : Store) (formId callerId : String) (req : UpdateRequest) :
    Except ApiError Store :=
  match st.forms.find? (fun f => f.id == formId) with
  | none => .error .notFoundError
  | some f =>
    if f.ownerPsychologistId != callerId then .error .forbiddenError
    else if blank req.title || req.questions.isEmpty
        || req.questions.any (fun q => blank q.text) then
      .error .validationError
    else
      .ok { st with
            forms := st.forms.map (fun g =>
              if g.id == formId then
                { g with title := req.title, description := req.description
                         questions := req.questions
                         assignedPatientIds := req.assignedPatientIds }
              else g) }

/-- The backend user registry (Credential Store, §2), not in the repository
excerpt. -/
structure AuthStore where
  users : List User
deriving DecidableEq, Repr

/-- Modelled from the spec: `register` of the Session Issuer (§4.1), whose
backend code is not in the repository excerpt.  It fails `ValidationError` if
the username is shorter than 3, the password shorter than 6, or any required
field blank; `ConflictError` if the username already exists; otherwise it
creates the user and returns the issued token, the user, and the new store.
`newId` and `tok` stand for the generated user id and token; the password
hash function is external and passed in. -/
def registerBackend (st : AuthStore) (newId tok : String)
    (req : RegisterRequest) : Except ApiError (String × User × AuthStore) :=
  if req.username.isEmpty || req.password.isEmpty
      || req.name.isEmpty || req.email.isEmpty
      || req.username.length < 3 || req.password.length < 6 then
    .error .validationError
  else if st.users.any (fun u => u.username == req.username) then
    .error .conflictError
  else
    let u : User := { id := newId, username := req.username
                      name := req.name, email := req.email, role := req.role }
    .ok (tok, u, { users := st.users ++ [u] })

/-! ### Concrete sample data, used to witness the theorems below -/

/-- A sample two-question form owned by psychologist `psy1`, assigned to all
patients. -/
def sampleForm : Form :=
  ⟨"f1", "T", "", [⟨"q1", "Q1", 0⟩, ⟨"q2", "Q2", 1⟩], "psy1", []⟩

/-- The request the answer screen issues for `sampleForm` with answers
`A1`, `A2`. -/
def sampleReq : SubmitRequest :=
  ⟨"f1", [⟨"q1", "Q1", "A1"⟩, ⟨"q2", "Q2", "A2"⟩]⟩

/-- The response stored for `sampleReq` submitted by patient `p1`. -/
def sampleResp : Response := ⟨"r1", "f1", "p1", "T", sampleReq.answers, 5⟩

/-- Backend store holding `sampleForm` and no responses. -/
def sampleStore : Store := ⟨[sampleForm], []⟩

/-- `sampleStore` after `sampleResp` was stored. -/
def sampleStore1 : Store := ⟨[sampleForm], [sampleResp]⟩

/-- An edit replacing title, description, questions and assignment of
`sampleForm`. -/
def sampleUpd : UpdateRequest := ⟨"T2", "D", [⟨"q1", "Q1x", 0⟩], ["p2"]⟩

/-- `sampleStore1` after `sampleUpd` was applied to `sampleForm`. -/
def sampleStore2 : Store :=
  ⟨[⟨"f1", "T2", "D", [⟨"q1", "Q1x", 0⟩], "psy1", ["p2"]⟩], [sampleResp]⟩

/-! ### Helper lemmas -/

theorem getItem_eq_none_of_forall (l : List (String × String)) (k : String)
    (h : ∀ kv ∈ l, (kv.1 == k) = false) : getItem l k = none := by
  unfold getItem
  rw [List.find?_eq_none.mpr]
  · rfl
  · intro x hx
    simp [h x hx]

theorem mem_removeItem (l : List (String × String)) (k : String)
    (x : String × String) (hx : x ∈ removeItem l k) : x ∈ l ∧ (x.1 == k) = false := by
  simp only [removeItem] at hx
  have h := List.mem_filter.mp hx
  refine ⟨h.1, ?_⟩
  have := h.2
  simp only [bne] at this
  cases hb : x.1 == k
  · rfl
  · rw [hb] at this
    simp at this

/-! ### Claim theorems -/

/-- C10: after `logout`, the session state holds `token = null` and
`user = null` and the stored `token` and `user` entries are removed,
regardless of the prior state; a second `logout` leaves the same cleared
state. -/
theorem logout_clears_and_idempotent (s : SessionState) :
    (logout s).token = none ∧ (logout s).user = none ∧
    getItem (logout s).storage "token" = none ∧
    getItem (logout s).storage "user" = none ∧
    logout (logout s) = logout s := by
  refine ⟨rfl, rfl, ?_, ?_, ?_⟩
  · apply getItem_eq_none_of_forall
    intro kv hkv
    exact (mem_removeItem _ _ _ (mem_removeItem _ _ _ hkv).1).2
  · apply getItem_eq_none_of_forall
    intro kv hkv
    exact (mem_removeItem _ _ _ hkv).2
  · show SessionState.mk none none _ = SessionState.mk none none _
    have : removeItem (removeItem (removeItem (removeItem s.storage "token")
        "user") "token") "user" = removeItem (removeItem s.storage "token") "user" := by
      simp only [removeItem, List.filter_filter]
      apply List.filter_congr
      intro kv _
      cases h1 : kv.1 == "token" <;> cases h2 : kv.1 == "user" <;>
        simp [bne, h1, h2]
    simp only [logout, this]

/-- Membership characterization of `toggleAssign`: the toggled id ends up in
the result iff it was absent; every other id keeps its membership. -/
theorem mem_toggleAssign (l : List String) (pid q : String) :
    q ∈ toggleAssign l pid ↔ ite (q = pid) (pid ∉ l) (q ∈ l) := by
  unfold toggleAssign
  by_cases hc : l.contains pid = true
  · rw [if_pos hc]
    have hpl : pid ∈ l := List.elem_iff.mp hc
    by_cases hq : q = pid
    · subst hq
      rw [if_pos rfl]
      constructor
      · intro hmem
        have := (List.mem_filter.mp hmem).2
        simp at this
      · intro h
        exact absurd hpl h
    · rw [if_neg hq]
      simp [List.mem_filter, hq]
  · rw [if_neg hc]
    have hpl : pid ∉ l := fun h => hc (List.elem_iff.mpr h)
    by_cases hq : q = pid
    · subst hq
      simp [hpl]
    · rw [if_neg hq]
      simp [hq]

/-- C8: `toggleAssign` flips exactly the toggled patient id's membership:
the id is in the result iff it was absent, every other id's membership is
unchanged, and toggling twice restores the original membership. -/
theorem toggleAssign_flips_membership (s : List String) (p : String) :
    (p ∈ toggleAssign s p ↔ p ∉ s)
    ∧ (∀ q, q ≠ p → (q ∈ toggleAssign s p ↔ q ∈ s))
    ∧ (∀ q, q ∈ toggleAssign (toggleAssign s p) p ↔ q ∈ s) := by
  refine ⟨?_, ?_, ?_⟩
  · have h := mem_toggleAssign s p p
    rwa [if_pos rfl] at h
  · intro q hq
    have h := mem_toggleAssign s p q
    rwa [if_neg hq] at h
  · intro q
    rw [mem_toggleAssign]
    by_cases hq : q = p
    · subst hq
      rw [if_pos rfl]
      have h := mem_toggleAssign s q q
      rw [if_pos rfl] at h
      simp [h]
    · rw [if_neg hq]
      have h := mem_toggleAssign s p q
      rwa [if_neg hq] at h

/-- C9: `updateQuestion qs i t` changes only the text of questions whose id
is `i`: the length and order of the list are unchanged, every element keeps
its id and order, matching questions get text `t`, non-matching questions are
untouched, and if no question has id `i` the list is returned identically. -/
theorem updateQuestion_frame (qs : List Question) (i t : String) :
    (updateQuestion qs i t).length = qs.length
    ∧ (∀ k (h1 : k < qs.length) (h2 : k < (updateQuestion qs i t).length),
        (updateQuestion qs i t)[k].id = qs[k].id
        ∧ (updateQuestion qs i t)[k].order = qs[k].order
        ∧ (qs[k].id = i → (updateQuestion qs i t)[k].text = t)
        ∧ (qs[k].id ≠ i → (updateQuestion qs i t)[k] = qs[k]))
    ∧ ((∀ q ∈ qs, q.id ≠ i) → updateQuestion qs i t = qs) := by
  refine ⟨by simp [updateQuestion], ?_, ?_⟩
  · intro k h1 h2
    simp only [updateQuestion, List.getElem_map]
    by_cases hid : qs[k].id = i
    · simp [hid]
    · simp [hid]
  · intro hnone
    simp only [updateQuestion]
    have : ∀ q ∈ qs, (if q.id == i then { q with text := t } else q) = q := by
      intro q hq
      simp [hnone q hq]
    calc qs.map (fun q => if q.id == i then { q with text := t } else q)
        = qs.map id := List.map_eq_map_iff.mpr (by simpa using this)
      _ = qs := List.map_id qs

/-- C4: `listFormsForPatient p` returns exactly the forms whose
`assignedPatientIds` is empty or contains `p`. -/
theorem listFormsForPatient_visibility (st : Store) (p : String) (f : Form) :
    f ∈ listFormsForPatient st p
      ↔ f ∈ st.forms ∧ (f.assignedPatientIds = [] ∨ p ∈ f.assignedPatientIds) := by
  simp only [listFormsForPatient, List.mem_filter, Bool.or_eq_true,
    List.isEmpty_iff]
  constructor
  · rintro ⟨hmem, hempty | hcont⟩
    · exact ⟨hmem, Or.inl hempty⟩
    · exact ⟨hmem, Or.inr (List.elem_iff.mp hcont)⟩
  · rintro ⟨hmem, hempty | hcont⟩
    · exact ⟨hmem, Or.inl hempty⟩
    · exact ⟨hmem, Or.inr (List.elem_iff.mpr hcont)⟩

/-- C6: the `User` interface of the client admits the role string
`'patiente'`, which is neither `'psychologist'` nor `'patient'`; the
registration screen only ever produces the two spec roles.  The role field is
therefore not two-valued in the code. -/
theorem role_type_admits_patiente :
    isUserRole "patiente" = true
    ∧ "patiente" ∉ registerRoleValues
    ∧ ¬("patiente" = "psychologist" ∨ "patiente" = "patient") := by
  decide

/-- C5: an edit is persisted only when the form invariant holds: a blank
title, an empty question list, or any blank question text is rejected with
`ValidationError` and no update request is issued; otherwise the update
proceeds with exactly the given title, description, questions and
`assignedPatientIds`. -/
theorem editSubmit_validates (title description : String)
    (qs : List Question) (pids : List String) :
    ((blank title = true ∨ qs = [] ∨ (∃ q ∈ qs, blank q.text = true)) →
        editSubmit title description qs pids = .error .validationError)
    ∧ (blank title = false → qs ≠ [] →
        (∀ q ∈ qs, blank q.text = false) →
        editSubmit title description qs pids =
          .ok ⟨title, description, qs, pids⟩) := by
  constructor
  · rintro (ht | rfl | ⟨q, hq, hblank⟩)
    · simp [editSubmit, ht]
    · unfold editSubmit
      split_ifs <;> simp_all
    · unfold editSubmit
      split_ifs with h1 h2 h3
      · rfl
      · rfl
      · rfl
      · exfalso
        apply h3
        have hmem : q ∈ qs.filter (fun q => blank q.text) :=
          List.mem_filter.mpr ⟨hq, hblank⟩
        exact List.length_pos.mpr (List.ne_nil_of_mem hmem)
  · intro ht hqs hall
    unfold editSubmit
    split_ifs with h1 h2 h3
    · simp [ht] at h1
    · simp at h2
      exact absurd h2 hqs
    · exfalso
      have hnil : qs.filter (fun q => blank q.text) = [] :=
        List.filter_eq_nil_iff.mpr (by intro a ha; simp [hall a ha])
      rw [hnil] at h3
      simp at h3
    · rfl

/-- C2: with an authenticated session, `handleSubmit` fails (no request
issued) whenever any question of the form has a missing or blank answer, and
proceeds — posting one answer per question, in form order — when every
question has a non-blank answer. -/
theorem handleSubmit_requires_answers (f : Form)
    (answers : List (String × String)) (tok : String) :
    ((∃ q ∈ f.questions, answerMissing answers q.id = true) →
        handleSubmit f answers (some tok) = .error .validationError)
    ∧ ((∀ q ∈ f.questions, answerMissing answers q.id = false) →
        handleSubmit f answers (some tok) =
          .ok { formId := f.id
                answers := f.questions.map (fun q =>
                  { questionId := q.id, questionText := q.text
                    answerText := (lookupAnswer answers q.id).getD "" }) }) := by
  constructor
  · rintro ⟨q, hq, hmiss⟩
    unfold handleSubmit
    rw [if_pos]
    have hmem : q ∈ f.questions.filter (fun q => answerMissing answers q.id) :=
      List.mem_filter.mpr ⟨hq, hmiss⟩
    exact List.length_pos.mpr (List.ne_nil_of_mem hmem)
  · intro hall
    unfold handleSubmit
    split_ifs with h1 h2
    · exfalso
      have hnil : f.questions.filter (fun q => answerMissing answers q.id) = [] :=
        List.filter_eq_nil_iff.mpr (by intro a ha; simp [hall a ha])
      rw [hnil] at h1
      simp at h1
    · simp at h2
    · rfl

/-- C7: the registration screen issues no request when the username is
shorter than 3, the password shorter than 6, or any required field empty
(`ValidationError`); when the request is issued, the backend fails
`ConflictError` for a taken username and otherwise creates the user and
returns the token and the user. -/
theorem register_contract (u p n e role newId tok : String) (st : AuthStore) :
    ((u.isEmpty = true ∨ p.isEmpty = true ∨ n.isEmpty = true ∨ e.isEmpty = true
        ∨ u.length < 3 ∨ p.length < 6) →
      handleRegister u p n e role = .error .validationError)
    ∧ (∀ req, handleRegister u p n e role = .ok req →
        req = ⟨u, p, n, e, role⟩
        ∧ (st.users.any (fun x => x.username == u) = true →
            registerBackend st newId tok req = .error .conflictError)
        ∧ (st.users.any (fun x => x.username == u) = false →
            registerBackend st newId tok req =
              .ok (tok, ⟨newId, u, n, e, role⟩,
                   ⟨st.users ++ [⟨newId, u, n, e, role⟩]⟩))) := by
  constructor
  · intro h
    unfold handleRegister
    split_ifs with h1 h2 h3
    · rfl
    · rfl
    · rfl
    · exfalso
      simp only [Bool.or_eq_true] at h1
      rcases h with h | h | h | h | h | h <;> simp_all
  · intro req hreq
    unfold handleRegister at hreq
    split_ifs at hreq with h1 h2 h3
    rw [Except.ok.injEq] at hreq
    subst hreq
    simp only [Bool.or_eq_true, not_or, Bool.not_eq_true] at h1
    obtain ⟨⟨⟨hu, hp⟩, hn⟩, he⟩ := h1
    have hval : (u.isEmpty || p.isEmpty || n.isEmpty || e.isEmpty
        || decide (u.length < 3) || decide (p.length < 6)) = false := by
      simp [hu, hp, hn, he, h2, h3]
    refine ⟨rfl, ?_, ?_⟩
    · intro hany
      unfold registerBackend
      rw [if_neg (by simp [hval]), if_pos hany]
    · intro hany
      unfold registerBackend
      rw [if_neg (by simp [hval]), if_neg (by simp [hany])]

/-- If a response for the pair already exists, `submitResponse` never
succeeds, whatever the caller, ids, timestamp or request for that form. -/
theorem submitResponse_not_ok_of_conflict (st : Store) (rid : String)
    (now : Nat) (role pid : String) (req : SubmitRequest)
    (hconf : st.responses.any (matchesPair req.formId pid) = true)
    (r : Response) (st2 : Store) :
    submitResponse st rid now role pid req ≠ .ok (r, st2) := by
  unfold submitResponse
  intro h
  split at h
  · simp at h
  · split_ifs at h with h1 h2 h3

/-- A resubmission by the same patient for the same form, once the form is
visible and the answers pass validation, fails with `ConflictError`. -/
theorem submitResponse_conflict_error (st : Store) (rid : String) (now : Nat)
    (pid : String) (req : SubmitRequest) (f : Form)
    (hf : st.forms.find? (fun g => g.id == req.formId) = some f)
    (hvis : (!(f.assignedPatientIds.isEmpty || f.assignedPatientIds.contains pid)) = false)
    (hans : (!(f.questions.all (questionAnswered req.answers))) = false)
    (hconf : st.responses.any (matchesPair req.formId pid) = true) :
    submitResponse st rid now "patient" pid req = .error .conflictError := by
  unfold submitResponse
  split
  next heq => rw [hf] at heq; exact absurd heq (by simp)
  next g heq =>
    rw [hf] at heq
    injection heq with heq'
    subst heq'
    rw [if_neg (by simp), if_neg (by rw [hvis]; simp), if_neg (by rw [hans]; simp),
      if_pos hconf]

/-- C1: at most one response ever exists per (form, patient) pair: a
successful `submitResponse` leaves exactly one stored response for the pair,
resubmitting the same request then fails `ConflictError`, and no later
submission for the pair can ever succeed (errors persist nothing). -/
theorem submitResponse_at_most_one (st : Store) (rid : String) (now : Nat)
    (pid : String) (req : SubmitRequest) (r : Response) (st1 : Store)
    (h : submitResponse st rid now "patient" pid req = .ok (r, st1)) :
    (st1.responses.filter (matchesPair req.formId pid)).length = 1
    ∧ (∀ rid2 now2,
        submitResponse st1 rid2 now2 "patient" pid req = .error .conflictError)
    ∧ (∀ rid2 now2 role2 req2 r2 st2, req2.formId = req.formId →
        submitResponse st1 rid2 now2 role2 pid req2 ≠ .ok (r2, st2)) := by
  unfold submitResponse at h
  split at h
  · simp at h
  next f hf =>
    split_ifs at h with hrole hvis hans hconf
    simp only [Except.ok.injEq, Prod.mk.injEq] at h
    obtain ⟨hr, hst1⟩ := h
    subst hr
    subst hst1
    simp only [Bool.not_eq_true] at hvis hans hconf
    have hnone : st.responses.filter (matchesPair req.formId pid) = [] :=
      List.filter_eq_nil_iff.mpr (by
        intro a ha
        have := List.any_eq_false.mp hconf a ha
        simpa using this)
    refine ⟨?_, ?_, ?_⟩
    · show ((st.responses ++ [_]).filter _).length = 1
      rw [List.filter_append, hnone]
      simp [matchesPair]
    · intro rid2 now2
      refine submitResponse_conflict_error _ rid2 now2 pid req f ?_ hvis hans ?_
      · exact hf
      · simp [matchesPair]
    · intro rid2 now2 role2 req2 r2 st2 hsame
      apply submitResponse_not_ok_of_conflict
      rw [hsame]
      simp [matchesPair]

theorem find?_congr_pred {α : Type} (l : List α) (p q : α → Bool)
    (h : ∀ a, p a = q a) : l.find? p = l.find? q := by
  have hpq : p = q := funext h
  rw [hpq]

/-- After a successful `updateForm`, the stored responses are untouched and
the form is found again with its fields replaced wholesale. -/
theorem updateForm_found (st : Store) (formId callerId : String)
    (req : UpdateRequest) (st2 : Store) (f : Form)
    (h : updateForm st formId callerId req = .ok st2)
    (hf : st.forms.find? (fun g => g.id == formId) = some f) :
    st2.responses = st.responses
    ∧ st2.forms.find? (fun g => g.id == formId)
        = some { f with title := req.title, description := req.description
                        questions := req.questions
                        assignedPatientIds := req.assignedPatientIds } := by
  unfold updateForm at h
  split at h
  · simp at h
  next g hg =>
    rw [hf] at hg
    injection hg with hg'
    subst hg'
    split_ifs at h with h1 h2
    rw [Except.ok.injEq] at h
    subst h
    refine ⟨rfl, ?_⟩
    have hfid : (f.id == formId) = true := by
      have := List.find?_some hf
      simpa using this
    have hpred : ∀ g : Form,
        ((fun x : Form => x.id == formId) ∘ (fun g : Form =>
          if g.id == formId then
            { g with title := req.title, description := req.description
                     questions := req.questions
                     assignedPatientIds := req.assignedPatientIds }
          else g)) g = (g.id == formId) := by
      intro g
      simp only [Function.comp]
      by_cases hgid : (g.id == formId) = true
      · simp [hgid]
      · simp [hgid]
    show (st.forms.map _).find? _ = _
    rw [List.find?_map, find?_congr_pred _ _ _ hpred, hf]
    simp only [Option.map_some']
    rw [if_pos hfid]

/-- C3: the submitted response carries exactly one answer per question of the
form, in the form's question order, pairing the question text at submission
time with the patient's entry; a later edit of the form alters neither the
stored list nor its retrievability through `listResponsesForForm`. -/
theorem response_snapshot_roundtrip (st : Store) (f : Form)
    (answers : List (String × String)) (tok rid : String) (now : Nat)
    (pid : String) (req : SubmitRequest) (r : Response) (st1 st2 : Store)
    (upd : UpdateRequest)
    (hfind : st.forms.find? (fun g => g.id == f.id) = some f)
    (hclient : handleSubmit f answers (some tok) = .ok req)
    (hsub : submitResponse st rid now "patient" pid req = .ok (r, st1))
    (hupd : updateForm st1 f.id f.ownerPsychologistId upd = .ok st2) :
    r.answers = f.questions.map (fun q =>
      { questionId := q.id, questionText := q.text
        answerText := (lookupAnswer answers q.id).getD "" })
    ∧ st2.responses = st1.responses
    ∧ ∃ rs, listResponsesForForm st2 f.ownerPsychologistId f.id = .ok rs
        ∧ r ∈ rs := by
  unfold handleSubmit at hclient
  split_ifs at hclient with hc1 hc2
  rw [Except.ok.injEq] at hclient
  have hfid : req.formId = f.id := by rw [← hclient]
  have hrans : req.answers = f.questions.map (fun q =>
      { questionId := q.id, questionText := q.text
        answerText := (lookupAnswer answers q.id).getD "" }) := by
    rw [← hclient]
  unfold submitResponse at hsub
  split at hsub
  · simp at hsub
  next g hg =>
    rw [hfid, hfind] at hg
    injection hg with hg'
    subst hg'
    split_ifs at hsub with hs1 hs2 hs3 hs4
    simp only [Except.ok.injEq, Prod.mk.injEq] at hsub
    obtain ⟨hr, hst1⟩ := hsub
    subst hr
    subst hst1
    obtain ⟨hresp, hfound⟩ := updateForm_found _ f.id f.ownerPsychologistId
      upd st2 f hupd hfind
    refine ⟨hrans, hresp, st2.responses.filter (fun x => x.formId == f.id),
      ?_, ?_⟩
    · unfold listResponsesForForm
      split
      next heq => rw [hfound] at heq; exact absurd heq (by simp)
      next g2 heq =>
        rw [hfound] at heq
        injection heq with heq'
        subst heq'
        rw [if_neg (by simp)]
    · rw [hresp]
      apply List.mem_filter.mpr
      constructor
      · simp
      · simp [hfid]

/-! ### Witnesses: each theorem with hypotheses evaluated at concrete
inputs -/

/-- Witness for C8: toggling `p2` on a list containing it. -/
theorem toggleAssign_flips_membership_witness :
    ("p2" ∈ toggleAssign ["p1", "p2"] "p2" ↔ "p2" ∉ (["p1", "p2"] : List String))
    ∧ ("p1" ∈ toggleAssign ["p1", "p2"] "p2" ↔ "p1" ∈ (["p1", "p2"] : List String))
    ∧ ("p2" ∈ toggleAssign (toggleAssign ["p1", "p2"] "p2") "p2"
        ↔ "p2" ∈ (["p1", "p2"] : List String)) :=
  ⟨(toggleAssign_flips_membership ["p1", "p2"] "p2").1,
   (toggleAssign_flips_membership ["p1", "p2"] "p2").2.1 "p1" (by decide),
   (toggleAssign_flips_membership ["p1", "p2"] "p2").2.2 "p2"⟩

/-- Witness for C9: editing question `q1` of a two-question list. -/
theorem updateQuestion_frame_witness :
    (updateQuestion [⟨"q1", "A", 0⟩, ⟨"q2", "B", 1⟩] "q1" "New").length
      = ([⟨"q1", "A", 0⟩, ⟨"q2", "B", 1⟩] : List Question).length
    ∧ (updateQuestion [⟨"q1", "A", 0⟩, ⟨"q2", "B", 1⟩] "q1" "New")[0].text = "New"
    ∧ (updateQuestion [⟨"q1", "A", 0⟩, ⟨"q2", "B", 1⟩] "q1" "New")[1]
        = (⟨"q2", "B", 1⟩ : Question) := by
  have h := updateQuestion_frame [⟨"q1", "A", 0⟩, ⟨"q2", "B", 1⟩] "q1" "New"
  exact ⟨h.1, (h.2.1 0 (by decide) (by decide)).2.2.1 (by decide),
    (h.2.1 1 (by decide) (by decide)).2.2.2 (by decide)⟩

/-- Witness for C5: a blank title is rejected; a valid edit goes through. -/
theorem editSubmit_validates_witness :
    editSubmit "" "d" [⟨"q1", "Q1", 0⟩] ["p1"] = .error .validationError
    ∧ editSubmit "T" "d" [⟨"q1", "Q1", 0⟩] ["p1"]
        = .ok ⟨"T", "d", [⟨"q1", "Q1", 0⟩], ["p1"]⟩ :=
  ⟨(editSubmit_validates "" "d" [⟨"q1", "Q1", 0⟩] ["p1"]).1 (Or.inl (by decide)),
   (editSubmit_validates "T" "d" [⟨"q1", "Q1", 0⟩] ["p1"]).2
     (by decide) (by decide) (by decide)⟩

/-- Witness for C2: one unanswered question of two blocks the submission;
complete answers produce the posted request. -/
theorem handleSubmit_requires_answers_witness :
    handleSubmit sampleForm [("q1", "A1")] (some "tok") = .error .validationError
    ∧ handleSubmit sampleForm [("q1", "A1"), ("q2", "A2")] (some "tok")
        = .ok sampleReq :=
  ⟨(handleSubmit_requires_answers sampleForm [("q1", "A1")] "tok").1
      ⟨⟨"q2", "Q2", 1⟩, by decide, by decide⟩,
   (handleSubmit_requires_answers sampleForm [("q1", "A1"), ("q2", "A2")] "tok").2
      (by decide)⟩

/-- Witness for C7: short username rejected client-side; duplicate username
conflicts; fresh username creates the user. -/
theorem register_contract_witness :
    handleRegister "ab" "secret1" "Ana" "a@b.c" "patient" = .error .validationError
    ∧ registerBackend ⟨[⟨"u1", "carlos", "Carlos", "c@b.c", "patient"⟩]⟩ "u2" "tok2"
        ⟨"carlos", "secret1", "Ana", "a@b.c", "patient"⟩ = .error .conflictError
    ∧ registerBackend ⟨[⟨"u1", "carlos", "Carlos", "c@b.c", "patient"⟩]⟩ "u2" "tok2"
        ⟨"ana", "secret1", "Ana", "a@b.c", "patient"⟩
        = .ok ("tok2", ⟨"u2", "ana", "Ana", "a@b.c", "patient"⟩,
               ⟨[⟨"u1", "carlos", "Carlos", "c@b.c", "patient"⟩,
                 ⟨"u2", "ana", "Ana", "a@b.c", "patient"⟩]⟩) :=
  ⟨(register_contract "ab" "secret1" "Ana" "a@b.c" "patient" "u2" "tok2"
      ⟨[⟨"u1", "carlos", "Carlos", "c@b.c", "patient"⟩]⟩).1
      (Or.inr (Or.inr (Or.inr (Or.inr (Or.inl (by decide)))))),
   ((register_contract "carlos" "secret1" "Ana" "a@b.c" "patient" "u2" "tok2"
      ⟨[⟨"u1", "carlos", "Carlos", "c@b.c", "patient"⟩]⟩).2
      ⟨"carlos", "secret1", "Ana", "a@b.c", "patient"⟩ rfl).2.1 (by decide),
   ((register_contract "ana" "secret1" "Ana" "a@b.c" "patient" "u2" "tok2"
      ⟨[⟨"u1", "carlos", "Carlos", "c@b.c", "patient"⟩]⟩).2
      ⟨"ana", "secret1", "Ana", "a@b.c", "patient"⟩ rfl).2.2 (by decide)⟩

/-- Witness for C1: after `p1` submits for `f1`, exactly one response for the
pair is stored. -/
theorem submitResponse_at_most_one_witness :
    (sampleStore1.responses.filter (matchesPair "f1" "p1")).length = 1
    ∧ (∀ rid2 now2, submitResponse sampleStore1 rid2 now2 "patient" "p1"
        sampleReq = .error .conflictError) := by
  have h := submitResponse_at_most_one sampleStore "r1" 5 "p1" sampleReq
    sampleResp sampleStore1 (by decide)
  exact ⟨h.1, h.2.1⟩

/-- Witness for C3: the stored answers of `sampleResp` pair each question
with its text and the patient's entry, and survive the `sampleUpd` edit. -/
theorem response_snapshot_roundtrip_witness :
    sampleResp.answers = sampleForm.questions.map (fun q =>
      { questionId := q.id, questionText := q.text
        answerText := (lookupAnswer [("q1", "A1"), ("q2", "A2")] q.id).getD "" })
    ∧ sampleStore2.responses = sampleStore1.responses
    ∧ ∃ rs, listResponsesForForm sampleStore2 sampleForm.ownerPsychologistId
        sampleForm.id = .ok rs ∧ sampleResp ∈ rs :=
  response_snapshot_roundtrip sampleStore sampleForm [("q1", "A1"), ("q2", "A2")]
    "tok" "r1" 5 "p1" sampleReq sampleResp sampleStore1 sampleStore2 sampleUpd
    (by decide) (by decide) (by decide) (by decide)

end BemEstar
